import Mathlib

/-!
# Verification of the tennisbot match settlement engine

Shallow embedding of the rating engine (`src/bot.py`), the SQLite-backed
ledger (`src/bot_db.py`) and the settlement handlers (`src/bot.py`),
together with proofs settling the frozen claims about the spec.

Modelling conventions:
* Machine floats are idealised as exact arithmetic: stored ratings are ℚ
  (SQLite REAL; all deltas are integers so values stay exact), and the
  rating engine works over ℝ because `10.0 ** x` is transcendental.
* Python `round` (banker's rounding, round-half-to-even) is `pyRound` /
  `pyRoundQ`; Python `int()` on a float (truncation toward zero) is
  `pyTrunc`.
* SQLite tables are association lists in insertion order; `SELECT ...
  WHERE id = ?` plus `fetchone` is `findRow` (first matching row);
  `INTEGER PRIMARY KEY` id assignment (no AUTOINCREMENT) is
  `nextId` = max of live ids + 1, which is SQLite's documented rowid
  allocation rule.
* Winner/loser id lists are stored as comma-joined strings in the DB and
  split back at every read site; the join/split round-trip is the
  identity on integer lists, so the model stores the lists directly.
* Timestamps and the chat transport (message texts, Telegram calls) are
  out of scope; only which notifications are emitted is modelled.
-/

namespace TennisBot

/-! ## Numeric primitives and the rating engine (`src/bot.py`) -/

open Classical in
/-- Python `round` on a real value: round half to even (banker's
rounding), the semantics of CPython's builtin `round`. -/
noncomputable def pyRound (x : ℝ) : ℤ :=
  if Int.fract x < 1/2 then ⌊x⌋
  else if 1/2 < Int.fract x then ⌊x⌋ + 1
  else if ⌊x⌋ % 2 = 0 then ⌊x⌋ else ⌊x⌋ + 1

/-- Python `round` on a rational value (used for the stored REAL ratings,
which remain rational): round half to even. -/
def pyRoundQ (q : ℚ) : ℤ :=
  if Int.fract q < 1/2 then ⌊q⌋
  else if 1/2 < Int.fract q then ⌊q⌋ + 1
  else if ⌊q⌋ % 2 = 0 then ⌊q⌋ else ⌊q⌋ + 1

/-- Python `int()` applied to a (rational-valued) float: truncation
toward zero. -/
def pyTrunc (q : ℚ) : ℤ := if 0 ≤ q then ⌊q⌋ else ⌈q⌉

/-- The constant `DEFAULT_RATING = 1000` (both `bot.py` and
`bot_db.py`). -/
def DEFAULT_RATING : ℤ := 1000

/-- Embeds `bot.calculate_k_factor`: `K = 15 + |R1 - R2| / 100`. -/
def calculate_k_factor (r1 r2 : ℤ) : ℚ :=
  15 + (|r1 - r2| : ℚ) / 100

/-- Expected score of the winner in `bot.calculate_elo_change`:
`1.0 / (1.0 + 10.0 ** ((rating_loser - rating_winner) / 400.0))`. -/
noncomputable def expected_score_winner (rating_winner rating_loser : ℤ) : ℝ :=
  1 / (1 + (10 : ℝ) ^ ((((rating_loser : ℝ) - (rating_winner : ℝ)) / 400) : ℝ))

/-- Embeds `bot.calculate_elo_change`: `int(round(k * (1.0 -
expected)))`. -/
noncomputable def calculate_elo_change (rating_winner rating_loser : ℤ) : ℤ :=
  pyRound (((calculate_k_factor rating_winner rating_loser : ℚ) : ℝ) *
    (1 - expected_score_winner rating_winner rating_loser))

/-! ## Database model (`src/bot_db.py`) -/

/-- A row of the `players` table (`id` is the association-list key;
`full_name` is presentation-only and omitted). -/
structure PlayerRow where
  username : String
  rating : ℚ
  wins : ℕ
  losses : ℕ
deriving DecidableEq

/-- A row of the `pending_matches` table (`id` is the key; the
`timestamp` column is never read back and is omitted). -/
structure PendingRow where
  match_type : String
  participants : List ℤ
  winner_ids : List ℤ
  loser_ids : List ℤ
  score : String
deriving DecidableEq

/-- A row of the `matches` history table (`id` is the key; `timestamp`
omitted as above). -/
structure MatchRow where
  match_type : String
  winner_ids : List ℤ
  loser_ids : List ℤ
  score : String
deriving DecidableEq

/-- The four record sets of `bot.db`, each as an association list in
insertion order. -/
structure DBState where
  players : List (ℤ × PlayerRow)
  user_mapping : List (String × ℤ)
  pending_matches : List (ℕ × PendingRow)
  /-- The `matches` table (`matches` is a reserved word in Lean). -/
  match_history : List (ℕ × MatchRow)
deriving DecidableEq

/-- The freshly initialised database (`Database.init_db` creates empty
tables). -/
def DBState.empty : DBState := ⟨[], [], [], []⟩

/-- Models `SELECT ... WHERE key = ?` followed by `fetchone`: the first
row with the given key. -/
def findRow {α β : Type} [DecidableEq α] : List (α × β) → α → Option β
  | [], _ => none
  | (k, v) :: rest, key => if k = key then some v else findRow rest key

/-- SQLite rowid allocation for `INTEGER PRIMARY KEY` without
AUTOINCREMENT: one more than the largest rowid currently in the table
(1 for an empty table). -/
def nextId {β : Type} (rows : List (ℕ × β)) : ℕ :=
  rows.foldr (fun r m => max r.1 m) 0 + 1

/-- Embeds `Database.get_user_id_by_tag`. -/
def get_user_id_by_tag (s : DBState) (username : String) : Option ℤ :=
  findRow s.user_mapping username

/-- Embeds `Database.get_player_rating`: the stored rating rounded by
Python `round` — or `DEFAULT_RATING` when there is no row (no error is
signalled). -/
def get_player_rating (s : DBState) (user_id : ℤ) : ℤ :=
  match findRow s.players user_id with
  | some row => pyRoundQ row.rating
  | none => DEFAULT_RATING

/-- The row transformation of `Database.update_player_rating`:
`rating += delta`, and `wins` += 1 when `delta > 0`, else `losses` += 1. -/
def updRow (delta_rating : ℤ) (row : PlayerRow) : PlayerRow :=
  { row with
    rating := row.rating + (delta_rating : ℚ),
    wins := if 0 < delta_rating then row.wins + 1 else row.wins,
    losses := if 0 < delta_rating then row.losses else row.losses + 1 }

/-- Embeds `Database.update_player_rating`: `UPDATE players SET ...
WHERE id = ?` (a no-op when no row matches). -/
def update_player_rating (s : DBState) (user_id : ℤ) (delta_rating : ℤ) : DBState :=
  { s with players := s.players.map fun kp =>
      if kp.1 = user_id then (kp.1, updRow delta_rating kp.2) else kp }

/-- Embeds `Database.add_pending_match`: inserts a new pending row and
returns `cursor.lastrowid`. -/
def add_pending_match (s : DBState) (match_type : String)
    (participants winner_ids loser_ids : List ℤ) (score : String) :
    DBState × ℕ :=
  let match_id := nextId s.pending_matches
  ({ s with pending_matches := s.pending_matches ++
      [(match_id, ⟨match_type, participants, winner_ids, loser_ids, score⟩)] },
   match_id)

/-- Embeds `Database.get_pending_match`: `(match_type, winner_ids,
loser_ids, score)` of the pending row, if any. -/
def get_pending_match (s : DBState) (match_id : ℕ) :
    Option (String × List ℤ × List ℤ × String) :=
  (findRow s.pending_matches match_id).map fun r =>
    (r.match_type, r.winner_ids, r.loser_ids, r.score)

/-- Embeds `Database.delete_pending_match`: `DELETE FROM pending_matches
WHERE id = ?`. -/
def delete_pending_match (s : DBState) (match_id : ℕ) : DBState :=
  { s with pending_matches := s.pending_matches.filter fun r => r.1 ≠ match_id }

/-- Embeds `Database.finalize_match`: inserts a history row, then
deletes the pending row. -/
def finalize_match (s : DBState) (match_id : ℕ)
    (winner_ids loser_ids : List ℤ) (score match_type : String) : DBState :=
  let s1 := { s with match_history := s.match_history ++
      [(nextId s.match_history, ⟨match_type, winner_ids, loser_ids, score⟩)] }
  delete_pending_match s1 match_id

/-- Embeds `Database.delete_match_by_id`: hard delete from history;
reports whether a row was removed. -/
def delete_match_by_id (s : DBState) (match_id : ℕ) : DBState × Bool :=
  ({ s with match_history := s.match_history.filter fun r => r.1 ≠ match_id },
   decide (∃ r ∈ s.match_history, r.1 = match_id))

/-- Modelled from the spec: `getRoundedRating(playerId) -> integer`
whose failure semantics say lookups for a nonexistent player signal
`NotFound`; the source has no such operation — `get_player_rating`
returns the default instead — so this spec variant returns `none` for a
missing player, for comparison with the source behaviour. -/
def getRoundedRating (s : DBState) (playerId : ℤ) : Option ℤ :=
  (findRow s.players playerId).map fun row => pyRoundQ row.rating

/-! ## Settlement handlers (`src/bot.py`) -/

/-- Models `sum(ratings) / len(ratings)` — the team-average computation
in `process_match_confirmation` (exact: an integer sum halved is exact
in binary floating point at these magnitudes). -/
def teamAvg (ratings : List ℤ) : ℚ :=
  ((ratings.map fun r => (r : ℚ)).sum) / (ratings.length : ℚ)

/-- Models the `for uid in ...: db.update_player_rating(uid, delta)`
loops of `process_match_confirmation`. -/
def applyTeamDelta (s : DBState) (uids : List ℤ) (delta_r : ℤ) : DBState :=
  uids.foldl (fun st u => update_player_rating st u delta_r) s

/-- Observable outcome of `process_match_confirmation` (the callback
answers; transport rendering is out of scope). -/
inductive ConfirmOutcome
  /-- Reply that the request was already processed or cancelled —
  the pending row is missing. -/
  | alreadyProcessed
  /-- Reply that only a participant of the match may confirm it. -/
  | notParticipant
  /-- Settlement applied with the given delta. -/
  | confirmed (delta_r : ℤ)
deriving DecidableEq

/-- The delta computed by `process_match_confirmation`: the engine is
called on `int(avg_winner_rating)` and `int(avg_loser_rating)` — the
truncations of the team means of the rounded stored ratings. -/
noncomputable def deltaOf (s : DBState) (winner_ids loser_ids : List ℤ) : ℤ :=
  calculate_elo_change
    (pyTrunc (teamAvg (winner_ids.map (get_player_rating s))))
    (pyTrunc (teamAvg (loser_ids.map (get_player_rating s))))

/-- Embeds `bot.process_match_confirmation` (confirm button callback):
guards, Elo update, finalization. The `callback.data` parse and all
message sends are transport-layer and omitted. -/
noncomputable def process_match_confirmation (s : DBState) (match_id : ℕ)
    (user_id : ℤ) : DBState × ConfirmOutcome :=
  match get_pending_match s match_id with
  | none => (s, ConfirmOutcome.alreadyProcessed)
  | some (match_type, winner_ids, loser_ids, score) =>
    if user_id ∈ winner_ids ++ loser_ids then
      let delta_r := deltaOf s winner_ids loser_ids
      let s1 := applyTeamDelta s winner_ids delta_r
      let s2 := applyTeamDelta s1 loser_ids (-delta_r)
      let s3 := finalize_match s2 match_id winner_ids loser_ids score match_type
      (s3, ConfirmOutcome.confirmed delta_r)
    else (s, ConfirmOutcome.notParticipant)

/-- The expiry message sent by `delete_pending_match_job` (its
arguments; the text is transport-layer). -/
structure ExpiryNote where
  chat_id : ℤ
  match_id : ℕ
  reply_to_message_id : ℤ
deriving DecidableEq

/-- Embeds `bot.delete_pending_match_job` (the 2-hour APScheduler job):
if the pending row still exists, delete it and send one expiry message;
else do nothing. -/
def delete_pending_match_job (s : DBState) (match_id : ℕ)
    (chat_id original_message_id : ℤ) : DBState × List ExpiryNote :=
  match get_pending_match s match_id with
  | some _ =>
    (delete_pending_match s match_id, [⟨chat_id, match_id, original_message_id⟩])
  | none => (s, [])

/-- Observable outcome of `handle_new_result_command` (replies are
transport-layer; only which branch was taken and the created id are
kept). -/
inductive NewResultOutcome
  /-- Reply that 1v1 needs exactly 2 players, or 2v2 exactly 4. -/
  | wrongPlayerCount
  /-- Reply that the given tag is not known to the bot. -/
  | unknownUser (tag : String)
  /-- Reply that match participants must be unique. -/
  | duplicateParticipants
  /-- Pending entry stored with this id (and the 2-hour timer armed). -/
  | created (pending_id : ℕ)
deriving DecidableEq

/-- Models the tag-resolution loop of `handle_new_result_command`: each
tag is looked up in `user_mapping`; the first unresolvable tag aborts.
(The source iterates over `set(tags)` in unspecified order; which
failing tag is reported is the only difference, and no claim depends on
it.) -/
def resolveTags (s : DBState) : List String → Except String (List ℤ)
  | [] => Except.ok []
  | tag :: rest =>
    match get_user_id_by_tag s tag with
    | none => Except.error tag
    | some uid => (resolveTags s rest).map fun ids => uid :: ids

/-- Embeds `bot.handle_new_result_command` from the point where
`match_type`, `tags` and `score` have been parsed: team-size guards, tag
resolution, duplicate check, pending insert. (Chat-type and
argument-count guards and the scheduler arming are transport-layer.) -/
def handle_new_result (s : DBState) (match_type : String) (tags : List String)
    (score : String) : DBState × NewResultOutcome :=
  if match_type = "1vs1" ∧ tags.length ≠ 2 then (s, NewResultOutcome.wrongPlayerCount)
  else if match_type = "2vs2" ∧ tags.length ≠ 4 then (s, NewResultOutcome.wrongPlayerCount)
  else
    match resolveTags s tags with
    | Except.error tag => (s, NewResultOutcome.unknownUser tag)
    | Except.ok ids =>
      let winner_count := if match_type = "1vs1" then 1 else 2
      let winner_ids := ids.take winner_count
      let loser_ids := ids.drop winner_count
      let participants_ids := winner_ids ++ loser_ids
      if ¬ participants_ids.Nodup then (s, NewResultOutcome.duplicateParticipants)
      else
        let r := add_pending_match s match_type participants_ids winner_ids
          loser_ids score
        (r.1, NewResultOutcome.created r.2)

/-- The stored continuous rating of a player (0 when absent), the
observable used to state rating-mass conservation. -/
def ratingOf (s : DBState) (p : ℤ) : ℚ :=
  ((findRow s.players p).map PlayerRow.rating).getD 0

/-! ## Concrete states used by witnesses and counterexamples -/

/-- A pending 1v1 match between players 1 and 2. -/
def pendingA : PendingRow := ⟨"1vs1", [1, 2], [1], [2], "11-9"⟩

/-- Two registered players at the default rating with pending match 1. -/
def stateA : DBState :=
  ⟨[(1, ⟨"p1", 1000, 0, 0⟩), (2, ⟨"p2", 1000, 0, 0⟩)],
   [("p1", 1), ("p2", 2)],
   [(1, pendingA)],
   []⟩

/-- Two tags resolving to the same player id (the player changed
username; `user_mapping` keeps both rows pointing at id 1). -/
def stateDupTags : DBState :=
  ⟨[(1, ⟨"a", 1000, 0, 0⟩)], [("a", 1), ("b", 1)], [], []⟩

/-- A pending 2v2 match; winner team ratings 1000 and 1001 make the team
mean the non-integer 2001/2. -/
def pendingB : PendingRow := ⟨"2vs2", [1, 2, 3, 4], [1, 2], [3, 4], "11-9"⟩

/-- Four registered players, winners at 1000 and 1001. -/
def stateB : DBState :=
  ⟨[(1, ⟨"p1", 1000, 0, 0⟩), (2, ⟨"p2", 1001, 0, 0⟩),
    (3, ⟨"p3", 1000, 0, 0⟩), (4, ⟨"p4", 1000, 0, 0⟩)],
   [("p1", 1), ("p2", 2), ("p3", 3), ("p4", 4)],
   [(1, pendingB)],
   []⟩

/-- Winner at rating 3000, loser at 1000; pending 1v1 match. -/
def stateGap : DBState :=
  ⟨[(1, ⟨"p1", 3000, 0, 0⟩), (2, ⟨"p2", 1000, 0, 0⟩)],
   [("p1", 1), ("p2", 2)],
   [(1, ⟨"1vs1", [1, 2], [1], [2], "11-0"⟩)],
   []⟩

/-! ## Race model for the confirm/expiry race

The source has no claim primitive: `process_match_confirmation` performs
`get_pending_match` (read) and then, with no further read of the pending
row, settles; `delete_pending_match_job` performs `get_pending_match`
(read) and then deletes. Each handler is modelled as two atomic database
steps — its read and its act — and executions are interleavings of the
two step sequences (the deployment runs handlers in separate Gunicorn
worker processes against the same SQLite file, with each statement its
own transaction, so steps of the two handlers can interleave). -/

/-- Terminal outcome published for a pending result. -/
inductive RaceOutcome
  /-- Settlement notification: ratings applied, history written. -/
  | finalized
  /-- Expiry notification: pending row dropped. -/
  | expired
deriving DecidableEq

/-- Program counter and read snapshot of one handler. -/
structure ThreadState where
  pc : ℕ
  snap : Option (String × List ℤ × List ℤ × String)
deriving DecidableEq

/-- Shared database plus the two handlers and the published outcomes. -/
structure RaceState where
  db : DBState
  confirmThread : ThreadState
  expireThread : ThreadState
  outcomes : List RaceOutcome

/-- The write phase of a confirmation (everything
`process_match_confirmation` does after its pending-row read succeeds
and the participant check passes): rating updates for both teams and
`finalize_match`. Ratings are read here, as in the source, after the
pending-row read. -/
noncomputable def settleClaimed (s : DBState) (match_id : ℕ) (mt : String)
    (w l : List ℤ) (score : String) : DBState :=
  finalize_match
    (applyTeamDelta (applyTeamDelta s w (deltaOf s w l)) l (-(deltaOf s w l)))
    match_id w l score mt

/-- One step of the confirmation handler: pc 0 reads the pending row
(`db.get_pending_match`); pc 1 either aborts (row gone or requester not
a participant) or settles and publishes `finalized`. -/
noncomputable def confirmStep (match_id : ℕ) (user_id : ℤ) (st : RaceState) :
    RaceState :=
  match st.confirmThread.pc with
  | 0 => { st with confirmThread := ⟨1, get_pending_match st.db match_id⟩ }
  | 1 =>
    match st.confirmThread.snap with
    | none => { st with confirmThread := ⟨2, none⟩ }
    | some (mt, w, l, score) =>
      if user_id ∈ w ++ l then
        { st with
          db := settleClaimed st.db match_id mt w l score,
          confirmThread := ⟨2, st.confirmThread.snap⟩,
          outcomes := st.outcomes ++ [RaceOutcome.finalized] }
      else { st with confirmThread := ⟨2, st.confirmThread.snap⟩ }
  | _ => st

/-- One step of the expiry job: pc 0 reads the pending row; pc 1 deletes
it and publishes `expired` iff the read saw it. -/
def expireStep (match_id : ℕ) (st : RaceState) : RaceState :=
  match st.expireThread.pc with
  | 0 => { st with expireThread := ⟨1, get_pending_match st.db match_id⟩ }
  | 1 =>
    match st.expireThread.snap with
    | none => { st with expireThread := ⟨2, none⟩ }
    | some _ =>
      { st with
        db := delete_pending_match st.db match_id,
        expireThread := ⟨2, st.expireThread.snap⟩,
        outcomes := st.outcomes ++ [RaceOutcome.expired] }
  | _ => st

/-- Runs a schedule: `true` lets the confirmation handler take its next
step, `false` the expiry job. -/
noncomputable def raceRun (match_id : ℕ) (user_id : ℤ) (sched : List Bool)
    (st : RaceState) : RaceState :=
  sched.foldl
    (fun acc b => if b then confirmStep match_id user_id acc
      else expireStep match_id acc) st

/-- Both handlers at their reads, nothing published. -/
def initRace (s : DBState) : RaceState := ⟨s, ⟨0, none⟩, ⟨0, none⟩, []⟩

/-! ## Concrete evaluations of the rating engine -/

lemma expected_score_winner_1000_1000 : expected_score_winner 1000 1000 = 1/2 := by
  unfold expected_score_winner
  rw [show (((1000 : ℤ) : ℝ) - ((1000 : ℤ) : ℝ)) / 400 = (0 : ℝ) by norm_num,
    Real.rpow_zero]
  norm_num

lemma floor_real_half_15 : ⌊(15 / 2 : ℝ)⌋ = 7 := by
  rw [Int.floor_eq_iff]
  norm_num

lemma pyRound_15_half : pyRound (15/2 : ℝ) = 8 := by
  unfold pyRound
  rw [Int.fract, floor_real_half_15]
  rw [if_neg (by norm_num), if_neg (by norm_num), if_neg (by norm_num)]
  norm_num

lemma calculate_elo_change_1000_1000 : calculate_elo_change 1000 1000 = 8 := by
  unfold calculate_elo_change
  rw [expected_score_winner_1000_1000,
    show ((calculate_k_factor 1000 1000 : ℚ) : ℝ) = 15 by
      unfold calculate_k_factor; push_cast; norm_num,
    show (15 : ℝ) * (1 - 1/2) = 15/2 by norm_num]
  exact pyRound_15_half

lemma expected_score_winner_3000_1000 :
    expected_score_winner 3000 1000 = 100000/100001 := by
  unfold expected_score_winner
  rw [show (((1000 : ℤ) : ℝ) - ((3000 : ℤ) : ℝ)) / 400 = (((-5 : ℤ) : ℝ)) by
      norm_num,
    Real.rpow_intCast]
  norm_num

lemma calculate_elo_change_3000_1000 : calculate_elo_change 3000 1000 = 0 := by
  unfold calculate_elo_change
  rw [expected_score_winner_3000_1000,
    show ((calculate_k_factor 3000 1000 : ℚ) : ℝ) = 35 by
      unfold calculate_k_factor; push_cast; norm_num,
    show (35 : ℝ) * (1 - 100000/100001) = 35/100001 by norm_num]
  unfold pyRound
  rw [Int.fract,
    show ⌊(35/100001 : ℝ)⌋ = 0 by rw [Int.floor_eq_iff]; norm_num]
  rw [if_pos (by norm_num)]

/-! ## Ledger lemmas -/

lemma findRow_filter_ne {α β : Type} [DecidableEq α] (rows : List (α × β)) (k : α) :
    findRow (rows.filter fun r => r.1 ≠ k) k = none := by
  induction rows with
  | nil => rfl
  | cons hd tl ih =>
    rcases hd with ⟨k1, v⟩
    by_cases h : k1 = k
    · simpa [List.filter_cons, h] using ih
    · simpa [List.filter_cons, h, findRow] using ih

lemma get_pending_match_delete (s : DBState) (match_id : ℕ) :
    get_pending_match (delete_pending_match s match_id) match_id = none := by
  have h := findRow_filter_ne s.pending_matches match_id
  unfold get_pending_match delete_pending_match
  simp only [h, Option.map_none']

lemma findRow_cons {α β : Type} [DecidableEq α] (k : α) (v : β)
    (tl : List (α × β)) (key : α) :
    findRow ((k, v) :: tl) key = if k = key then some v else findRow tl key := rfl

lemma findRow_map_upd (l : List (ℤ × PlayerRow)) (u delta p : ℤ) :
    findRow (l.map fun kp => if kp.1 = u then (kp.1, updRow delta kp.2) else kp) p =
      if p = u then (findRow l p).map (updRow delta) else findRow l p := by
  induction l with
  | nil => simp [findRow]
  | cons hd tl ih =>
    rcases hd with ⟨k, v⟩
    rw [List.map_cons]
    by_cases hku : k = u <;> by_cases hkp : k = p
    · subst hku; subst hkp
      simp [findRow_cons]
    · subst hku
      have hpk : ¬ p = k := fun h => hkp h.symm
      simp [findRow_cons, hkp, hpk, ih]
    · subst hkp
      simp [findRow_cons, hku]
    · have hpk : ¬ p = k := fun h => hkp h.symm
      simp [findRow_cons, hku, hkp, hpk, ih]

lemma findRow_update_players (s : DBState) (u delta p : ℤ) :
    findRow (update_player_rating s u delta).players p =
      if p = u then (findRow s.players p).map (updRow delta)
      else findRow s.players p :=
  findRow_map_upd s.players u delta p

lemma applyTeamDelta_cons (s : DBState) (u : ℤ) (rest : List ℤ) (delta : ℤ) :
    applyTeamDelta s (u :: rest) delta =
      applyTeamDelta (update_player_rating s u delta) rest delta := rfl

lemma applyTeamDelta_findRow_not_mem (uids : List ℤ) :
    ∀ (s : DBState) (delta p : ℤ), p ∉ uids →
      findRow (applyTeamDelta s uids delta).players p = findRow s.players p := by
  induction uids with
  | nil => intro s delta p _; rfl
  | cons u rest ih =>
    intro s delta p hp
    have hne : ¬ p = u := by
      intro hpu
      exact hp (by rw [hpu]; exact List.mem_cons_self u rest)
    rw [applyTeamDelta_cons,
      ih _ _ _ (fun hm => hp (List.mem_cons_of_mem _ hm)),
      findRow_update_players, if_neg hne]

lemma applyTeamDelta_findRow_mem (uids : List ℤ) :
    ∀ (s : DBState) (delta p : ℤ), uids.Nodup → p ∈ uids →
      findRow (applyTeamDelta s uids delta).players p =
        (findRow s.players p).map (updRow delta) := by
  induction uids with
  | nil => intro s delta p _ hp; cases hp
  | cons u rest ih =>
    intro s delta p hnd hp
    rcases List.nodup_cons.mp hnd with ⟨hnotin, hndr⟩
    rw [applyTeamDelta_cons]
    rcases List.mem_cons.mp hp with rfl | hmem
    · rw [applyTeamDelta_findRow_not_mem rest _ _ _ hnotin,
        findRow_update_players, if_pos rfl]
    · have hne : ¬ p = u := by
        intro hpu
        rw [hpu] at hmem
        exact hnotin hmem
      rw [ih _ _ _ hndr hmem, findRow_update_players, if_neg hne]

lemma applyTeamDelta_pending (uids : List ℤ) :
    ∀ (s : DBState) (delta : ℤ),
      (applyTeamDelta s uids delta).pending_matches = s.pending_matches := by
  induction uids with
  | nil => intro s delta; rfl
  | cons u rest ih =>
    intro s delta
    rw [applyTeamDelta_cons, ih]
    rfl

lemma applyTeamDelta_history (uids : List ℤ) :
    ∀ (s : DBState) (delta : ℤ),
      (applyTeamDelta s uids delta).match_history = s.match_history := by
  induction uids with
  | nil => intro s delta; rfl
  | cons u rest ih =>
    intro s delta
    rw [applyTeamDelta_cons, ih]
    rfl

lemma finalize_match_players (s : DBState) (match_id : ℕ)
    (winner_ids loser_ids : List ℤ) (score match_type : String) :
    (finalize_match s match_id winner_ids loser_ids score match_type).players =
      s.players := rfl

lemma get_pending_match_finalize_self (s : DBState) (match_id : ℕ)
    (winner_ids loser_ids : List ℤ) (score match_type : String) :
    get_pending_match (finalize_match s match_id winner_ids loser_ids score match_type)
      match_id = none := by
  unfold finalize_match
  exact get_pending_match_delete _ _

lemma get_pending_match_settleClaimed (s : DBState) (match_id : ℕ)
    (mt : String) (w l : List ℤ) (score : String) :
    get_pending_match (settleClaimed s match_id mt w l score) match_id = none :=
  get_pending_match_finalize_self _ _ _ _ _ _

lemma sum_map_const {α : Type} (xs : List α) (f : α → ℚ) (c : ℚ)
    (h : ∀ x ∈ xs, f x = c) : (xs.map f).sum = (xs.length : ℚ) * c := by
  induction xs with
  | nil => simp
  | cons x rest ih =>
    rw [List.map_cons, List.sum_cons, h x (List.mem_cons_self x rest),
      ih fun y hy => h y (List.mem_cons_of_mem _ hy), List.length_cons]
    push_cast
    ring

lemma le_foldr_max {β : Type} (rows : List (ℕ × β)) (p : ℕ × β) (hp : p ∈ rows) :
    p.1 ≤ rows.foldr (fun r m => max r.1 m) 0 := by
  induction rows with
  | nil => cases hp
  | cons hd tl ih =>
    rcases List.mem_cons.mp hp with rfl | h
    · exact le_max_left _ _
    · exact le_trans (ih h) (le_max_right _ _)

/-! ## Shape lemmas for the confirmation handler -/

lemma process_match_confirmation_none (s : DBState) (match_id : ℕ) (user_id : ℤ)
    (hget : get_pending_match s match_id = none) :
    process_match_confirmation s match_id user_id =
      (s, ConfirmOutcome.alreadyProcessed) := by
  unfold process_match_confirmation
  rw [hget]

lemma process_match_confirmation_not_participant (s : DBState) (match_id : ℕ)
    (user_id : ℤ) (mt : String) (w l : List ℤ) (score : String)
    (hget : get_pending_match s match_id = some (mt, w, l, score))
    (hmem : user_id ∉ w ++ l) :
    process_match_confirmation s match_id user_id =
      (s, ConfirmOutcome.notParticipant) := by
  unfold process_match_confirmation
  rw [hget]
  simp [hmem]

lemma process_match_confirmation_confirmed (s : DBState) (match_id : ℕ)
    (user_id : ℤ) (mt : String) (w l : List ℤ) (score : String)
    (hget : get_pending_match s match_id = some (mt, w, l, score))
    (hmem : user_id ∈ w ++ l) :
    process_match_confirmation s match_id user_id =
      (finalize_match
        (applyTeamDelta (applyTeamDelta s w (deltaOf s w l)) l (-(deltaOf s w l)))
        match_id w l score mt,
       ConfirmOutcome.confirmed (deltaOf s w l)) := by
  unfold process_match_confirmation
  rw [hget]
  simp [hmem]

/-- Core frame fact shared by several claims: a confirmed settlement
transforms each winner row by `updRow delta` and each loser row by
`updRow (-delta)`, for the single delta `deltaOf`. -/
lemma confirmed_players_update (s : DBState) (match_id : ℕ) (user_id : ℤ)
    (mt : String) (w l : List ℤ) (score : String)
    (hget : get_pending_match s match_id = some (mt, w, l, score))
    (hmem : user_id ∈ w ++ l) (hnd : (w ++ l).Nodup) :
    (∀ p ∈ w, findRow (process_match_confirmation s match_id user_id).1.players p =
        (findRow s.players p).map (updRow (deltaOf s w l))) ∧
    (∀ p ∈ l, findRow (process_match_confirmation s match_id user_id).1.players p =
        (findRow s.players p).map (updRow (-(deltaOf s w l)))) := by
  have hrw := process_match_confirmation_confirmed s match_id user_id mt w l
    score hget hmem
  rcases List.nodup_append.mp hnd with ⟨hw, hl, hdisj⟩
  rw [hrw]
  dsimp only
  constructor
  · intro p hp
    have hpl : p ∉ l := hdisj hp
    rw [finalize_match_players,
      applyTeamDelta_findRow_not_mem l _ _ _ hpl,
      applyTeamDelta_findRow_mem w _ _ _ hw hp]
  · intro p hp
    have hpw : p ∉ w := fun hin => hdisj hin hp
    rw [finalize_match_players,
      applyTeamDelta_findRow_mem l _ _ _ hl hp,
      applyTeamDelta_findRow_not_mem w _ _ _ hpw]

/-! ## Evaluation lemmas for the rational helpers
(SQLite REAL arithmetic on ℚ does not reduce definitionally in the
kernel, so concrete values are computed propositionally.) -/

lemma pyRoundQ_intCast (n : ℤ) : pyRoundQ (n : ℚ) = n := by
  unfold pyRoundQ
  rw [Int.fract_intCast]
  rw [if_pos (by norm_num), Int.floor_intCast]

lemma pyTrunc_intCast (n : ℤ) : pyTrunc (n : ℚ) = n := by
  unfold pyTrunc
  split_ifs with h
  · exact Int.floor_intCast n
  · exact Int.ceil_intCast n

lemma pyTrunc_2001_half : pyTrunc (2001/2 : ℚ) = 1000 := by
  unfold pyTrunc
  rw [if_pos (by norm_num), Int.floor_eq_iff]
  norm_num

lemma teamAvg_pair (a b : ℤ) : teamAvg [a, b] = ((a : ℚ) + (b : ℚ)) / 2 := by
  simp [teamAvg]

lemma teamAvg_single (a : ℤ) : teamAvg [a] = (a : ℚ) := by
  simp [teamAvg]

lemma get_player_rating_of_intCast (s : DBState) (uid n : ℤ) (row : PlayerRow)
    (hrow : findRow s.players uid = some row) (hr : row.rating = (n : ℚ)) :
    get_player_rating s uid = n := by
  unfold get_player_rating
  rw [hrow]
  show pyRoundQ row.rating = n
  rw [hr, pyRoundQ_intCast]

/-! ## C1 — the confirm/expiry race -/

/-- Claim C1 (amended): the code has no claim step — mutual exclusion
holds only when each handler's read-then-act section runs without
interleaving. Under either serialized order, exactly one of {finalized,
expired} is published: the handler that runs first wins and the other
reads an absent row and no-ops. (The counterexample shows that
interleaving the sections publishes both.) -/
theorem C1_serialized_exactly_one (s : DBState) (match_id : ℕ) (user_id : ℤ)
    (mt : String) (w l : List ℤ) (score : String)
    (hget : get_pending_match s match_id = some (mt, w, l, score))
    (hmem : user_id ∈ w ++ l) :
    (raceRun match_id user_id [true, true, false, false] (initRace s)).outcomes =
      [RaceOutcome.finalized] ∧
    (raceRun match_id user_id [false, false, true, true] (initRace s)).outcomes =
      [RaceOutcome.expired] := by
  have hor := List.mem_append.mp hmem
  constructor
  · simp [raceRun, initRace, confirmStep, expireStep, hget, hor,
      get_pending_match_settleClaimed]
  · simp [raceRun, initRace, confirmStep, expireStep, hget, hor,
      get_pending_match_delete]

/-- Witness for C1's amended theorem at a concrete state. -/
theorem C1_witness :
    (get_pending_match stateA 1 = some ("1vs1", [1], [2], "11-9") ∧
      (1 : ℤ) ∈ (([1] ++ [2]) : List ℤ)) ∧
    (raceRun 1 1 [true, true, false, false] (initRace stateA)).outcomes =
      [RaceOutcome.finalized] :=
  ⟨⟨by decide, by decide⟩,
   (C1_serialized_exactly_one stateA 1 1 "1vs1" [1] [2] "11-9" (by decide)
     (by decide)).1⟩

/-- Claim C1 counterexample: with the two reads interleaved ahead of the
two acts (confirm read, expiry read, confirm act, expiry act), *both*
outcomes are published for the same pending id — the confirmation
settles (ratings move, history is written) and the expiry job, acting on
its stale read, also deletes and announces expiry. This refutes
"never both"; there is no claim step granting success to exactly one
caller. -/
theorem C1_counterexample :
    (raceRun 1 1 [true, false, true, false] (initRace stateA)).outcomes =
      [RaceOutcome.finalized, RaceOutcome.expired] := by
  simp [raceRun, initRace, confirmStep, expireStep,
    show get_pending_match stateA 1 = some ("1vs1", [1], [2], "11-9") from rfl]

/-! ## C2 — doubles use truncated team means -/

/-- Claim C2 counterexample: the engine is *not* invoked with the exact
arithmetic mean of each team's member ratings. With winner ratings 1000
and 1001 the exact mean is 2001/2, but `int(avg_winner_rating)`
truncates it to 1000 before the engine call, so the confirmation settles
with `calculate_elo_change 1000 1000` — an input different from the
exact mean. -/
theorem C2_counterexample :
    teamAvg ([1, 2].map (get_player_rating stateB)) = 2001/2 ∧
    (process_match_confirmation stateB 1 1).2 =
      ConfirmOutcome.confirmed (calculate_elo_change 1000 1000) ∧
    ((1000 : ℚ) ≠ 2001/2) := by
  have h1 : get_player_rating stateB 1 = 1000 :=
    get_player_rating_of_intCast stateB 1 1000 ⟨"p1", 1000, 0, 0⟩ rfl (by norm_num)
  have h2 : get_player_rating stateB 2 = 1001 :=
    get_player_rating_of_intCast stateB 2 1001 ⟨"p2", 1001, 0, 0⟩ rfl (by norm_num)
  have h3 : get_player_rating stateB 3 = 1000 :=
    get_player_rating_of_intCast stateB 3 1000 ⟨"p3", 1000, 0, 0⟩ rfl (by norm_num)
  have h4 : get_player_rating stateB 4 = 1000 :=
    get_player_rating_of_intCast stateB 4 1000 ⟨"p4", 1000, 0, 0⟩ rfl (by norm_num)
  have hmw : [1, 2].map (get_player_rating stateB) = [1000, 1001] := by
    rw [List.map_cons, List.map_cons, List.map_nil, h1, h2]
  have hml : [3, 4].map (get_player_rating stateB) = [1000, 1000] := by
    rw [List.map_cons, List.map_cons, List.map_nil, h3, h4]
  have havg : teamAvg ([1000, 1001] : List ℤ) = 2001/2 := by
    rw [teamAvg_pair]
    push_cast
    norm_num
  refine ⟨by rw [hmw]; exact havg, ?_, by norm_num⟩
  rw [process_match_confirmation_confirmed stateB 1 1 "2vs2" [1, 2] [3, 4] "11-9"
    (by decide) (by decide)]
  dsimp only
  unfold deltaOf
  rw [hmw, hml, havg, pyTrunc_2001_half, teamAvg_pair,
    show (((1000 : ℤ) : ℚ) + ((1000 : ℤ) : ℚ)) / 2 = ((1000 : ℤ) : ℚ) by norm_num,
    pyTrunc_intCast]

/-- Claim C2 (amended): for every doubles (indeed any) confirmation, the
rating engine is invoked exactly once, with the *truncation toward zero*
of each team's arithmetic mean of rounded stored ratings as its two
inputs (the exact mean is lost whenever the team rating sum is odd), and
the resulting single delta is applied identically to every member of
each team: every winner row is transformed by `updRow delta` (rating
`+delta`), every loser row by `updRow (-delta)` (rating `-delta`). -/
theorem C2_truncated_mean_single_delta (s : DBState) (match_id : ℕ)
    (user_id : ℤ) (mt : String) (w l : List ℤ) (score : String)
    (hget : get_pending_match s match_id = some (mt, w, l, score))
    (hmem : user_id ∈ w ++ l) (hnd : (w ++ l).Nodup) :
    (process_match_confirmation s match_id user_id).2 =
      ConfirmOutcome.confirmed
        (calculate_elo_change (pyTrunc (teamAvg (w.map (get_player_rating s))))
          (pyTrunc (teamAvg (l.map (get_player_rating s))))) ∧
    (∀ p ∈ w, findRow (process_match_confirmation s match_id user_id).1.players p =
        (findRow s.players p).map (updRow (deltaOf s w l))) ∧
    (∀ p ∈ l, findRow (process_match_confirmation s match_id user_id).1.players p =
        (findRow s.players p).map (updRow (-(deltaOf s w l)))) := by
  have h := confirmed_players_update s match_id user_id mt w l score hget hmem hnd
  refine ⟨?_, h.1, h.2⟩
  rw [process_match_confirmation_confirmed s match_id user_id mt w l score
    hget hmem]
  rfl

/-- Witness for C2's amended theorem: concrete doubles confirmation. -/
theorem C2_witness :
    (get_pending_match stateB 1 = some ("2vs2", [1, 2], [3, 4], "11-9") ∧
      (1 : ℤ) ∈ (([1, 2] ++ [3, 4]) : List ℤ) ∧
      (([1, 2] ++ [3, 4]) : List ℤ).Nodup) ∧
    (∀ p ∈ ([1, 2] : List ℤ),
      findRow (process_match_confirmation stateB 1 1).1.players p =
        (findRow stateB.players p).map (updRow (deltaOf stateB [1, 2] [3, 4]))) :=
  ⟨⟨by decide, by decide, by decide⟩,
   (C2_truncated_mean_single_delta stateB 1 1 "2vs2" [1, 2] [3, 4] "11-9"
     (by decide) (by decide) (by decide)).2.1⟩

/-! ## C3 — the concrete tie-break value -/

/-- Claim C3: `computeDelta(1000, 1000)` returns exactly 8: K = 15,
expected winner score = 1/2, raw delta 7.5, and the half-to-even
tie-break rounds up to the even result 8. -/
theorem C3_delta_1000_1000 :
    calculate_k_factor 1000 1000 = 15 ∧
    expected_score_winner 1000 1000 = 1/2 ∧
    calculate_elo_change 1000 1000 = 8 := by
  refine ⟨?_, expected_score_winner_1000_1000, calculate_elo_change_1000_1000⟩
  unfold calculate_k_factor
  norm_num

/-! ## C4 — zero-sum per settled match -/

/-- Claim C4: for every confirmed match (equal team sizes, distinct
participants, all participants registered — the shape
`handle_new_result` guarantees), the sum of the rating changes applied
to the winners equals the negative of the sum applied to the losers:
each winner gains `delta`, each loser loses the same `delta`, and the
teams have equal size. -/
theorem C4_zero_sum (s : DBState) (match_id : ℕ) (user_id : ℤ)
    (mt : String) (w l : List ℤ) (score : String)
    (hget : get_pending_match s match_id = some (mt, w, l, score))
    (hmem : user_id ∈ w ++ l) (hnd : (w ++ l).Nodup)
    (hlen : w.length = l.length)
    (hpres : ∀ p ∈ w ++ l, (findRow s.players p).isSome) :
    (w.map fun p =>
        ratingOf (process_match_confirmation s match_id user_id).1 p
          - ratingOf s p).sum =
      - (l.map fun p =>
        ratingOf (process_match_confirmation s match_id user_id).1 p
          - ratingOf s p).sum := by
  rcases confirmed_players_update s match_id user_id mt w l score hget hmem hnd
    with ⟨hwin, hlos⟩
  have key : ∀ (p : ℤ), (findRow s.players p).isSome → ∀ (d : ℤ),
      (((findRow s.players p).map (updRow d)).map PlayerRow.rating).getD 0
        - ((findRow s.players p).map PlayerRow.rating).getD 0 = (d : ℚ) := by
    intro p hp d
    rcases Option.isSome_iff_exists.mp hp with ⟨row, hrow⟩
    rw [hrow]
    simp [updRow]
  rw [sum_map_const w _ ((deltaOf s w l : ℤ) : ℚ) (fun p hp => by
      rw [ratingOf, ratingOf, hwin p hp]
      exact key p (hpres p (List.mem_append_left l hp)) _),
    sum_map_const l _ (-((deltaOf s w l : ℤ) : ℚ)) (fun p hp => by
      rw [ratingOf, ratingOf, hlos p hp]
      have hk := key p (hpres p (List.mem_append_right w hp)) (-(deltaOf s w l))
      rw [hk]
      push_cast
      ring),
    hlen]
  ring

/-- Witness for C4: concrete 1v1 confirmation at stateA. -/
theorem C4_witness :
    (get_pending_match stateA 1 = some ("1vs1", [1], [2], "11-9") ∧
      (1 : ℤ) ∈ (([1] ++ [2]) : List ℤ) ∧ (([1] ++ [2]) : List ℤ).Nodup ∧
      ([1] : List ℤ).length = ([2] : List ℤ).length ∧
      ∀ p ∈ (([1] ++ [2]) : List ℤ), (findRow stateA.players p).isSome) ∧
    (([1] : List ℤ).map fun p =>
        ratingOf (process_match_confirmation stateA 1 1).1 p
          - ratingOf stateA p).sum =
      - (([2] : List ℤ).map fun p =>
        ratingOf (process_match_confirmation stateA 1 1).1 p
          - ratingOf stateA p).sum :=
  ⟨⟨by decide, by decide, by decide, rfl, by decide⟩,
   C4_zero_sum stateA 1 1 "1vs1" [1] [2] "11-9" (by decide) (by decide)
     (by decide) rfl (by decide)⟩

/-! ## C5 — duplicate participants are rejected before any write -/

/-- Claim C5: whenever the resolved winner and loser id lists share an
id or contain a duplicate id (the command-size guards passing), the
handler answers `duplicateParticipants` and returns the database
unchanged — no pending entry is written. The validation lives in
`handle_new_result_command`, before `Database.add_pending_match` is
reached. -/
theorem C5_duplicate_rejected (s : DBState) (match_type : String)
    (tags : List String) (score : String) (ids : List ℤ)
    (hsize : (match_type = "1vs1" ∧ tags.length = 2) ∨
      (match_type = "2vs2" ∧ tags.length = 4))
    (hres : resolveTags s tags = Except.ok ids)
    (hdup : ¬ ids.Nodup) :
    handle_new_result s match_type tags score =
      (s, NewResultOutcome.duplicateParticipants) := by
  unfold handle_new_result
  rcases hsize with ⟨hmt, hlen⟩ | ⟨hmt, hlen⟩ <;> subst hmt
  · have hdup2 : ¬ (List.take 1 ids ++ ids.tail).Nodup := by
      rw [← List.drop_one, List.take_append_drop]
      exact hdup
    simp [hlen, hres, hdup2]
  · simp [hlen, hres, hdup]

/-- Witness for C5: a concrete instance — two distinct tags resolving to
the same id are rejected with no state change. -/
theorem C5_witness :
    (resolveTags stateDupTags ["a", "b"] = Except.ok [1, 1] ∧
      ¬ ([1, 1] : List ℤ).Nodup) ∧
    handle_new_result stateDupTags "1vs1" ["a", "b"] "11-9" =
      (stateDupTags, NewResultOutcome.duplicateParticipants) :=
  ⟨⟨rfl, by decide⟩,
   C5_duplicate_rejected stateDupTags "1vs1" ["a", "b"] "11-9" [1, 1]
     (Or.inl ⟨rfl, rfl⟩) rfl (by decide)⟩

/-! ## C6 — rating lookup for a missing player -/

/-- Claim C6 counterexample: the claim says a rating lookup for an
unknown player id signals `NotFound`; the source's `get_player_rating`
instead returns `DEFAULT_RATING` (1000) — the spec-modelled
`getRoundedRating` returns `none` on the same input, while the source
function returns a value. -/
theorem C6_counterexample :
    get_player_rating DBState.empty 7 = 1000 ∧
    getRoundedRating DBState.empty 7 = none := by
  decide

/-- Claim C6 (amended): for a player id with no stored record, the
rating read used during settlement returns the default rating 1000
rather than signalling `NotFound`. -/
theorem C6_default_for_missing (s : DBState) (user_id : ℤ)
    (h : findRow s.players user_id = none) :
    get_player_rating s user_id = DEFAULT_RATING := by
  unfold get_player_rating
  rw [h]

/-- Witness for C6's amended theorem at a concrete state. -/
theorem C6_witness :
    findRow DBState.empty.players 7 = none ∧
    get_player_rating DBState.empty 7 = DEFAULT_RATING :=
  ⟨by decide, C6_default_for_missing DBState.empty 7 (by decide)⟩

/-! ## C7 — id assignment -/

/-- Claim C7 counterexample: ids are not unique across a
create–discard–create sequence. SQLite assigns `max(live rowids) + 1`,
so after the only pending row (id 1) is deleted — as expiry and
finalization both do — the next `add_pending_match` returns id 1 again:
the same id is assigned twice, and the second id is not greater than the
first. -/
theorem C7_counterexample :
    (add_pending_match DBState.empty "1vs1" [1, 2] [1] [2] "11-9").2 = 1 ∧
    (add_pending_match
        (delete_pending_match
          (add_pending_match DBState.empty "1vs1" [1, 2] [1] [2] "11-9").1 1)
        "1vs1" [3, 4] [3] [4] "11-9").2 = 1 := by
  decide

/-- Claim C7 (amended): each id returned by `add_pending_match` is
strictly greater than every id of a *live* pending row, so ids are
unique and increasing as long as no pending row is deleted; deletion
(expiry or finalization) frees the largest id for reuse. -/
theorem C7_fresh_id_above_live (s : DBState) (match_type : String)
    (participants winner_ids loser_ids : List ℤ) (score : String) :
    ∀ p ∈ s.pending_matches,
      p.1 < (add_pending_match s match_type participants winner_ids loser_ids
        score).2 := by
  intro p hp
  have h := le_foldr_max s.pending_matches p hp
  exact Nat.lt_succ_of_le h

/-- Witness for C7's amended theorem at a concrete state. -/
theorem C7_witness :
    ((1, pendingA) ∈ stateA.pending_matches) ∧
    (1, pendingA).1 < (add_pending_match stateA "1vs1" [1, 2] [1] [2] "7-11").2 :=
  ⟨by decide,
   C7_fresh_id_above_live stateA "1vs1" [1, 2] [1] [2] "7-11" (1, pendingA)
     (by decide)⟩

/-! ## C8 — confirmation by a non-participant -/

/-- Claim C8: when the pending entry exists but the requester is not
among its participants, the handler answers `notParticipant` and returns
the database unchanged: the pending row stays, no ratings change, no
history row is written, and the entry remains claimable. -/
theorem C8_not_authorized (s : DBState) (match_id : ℕ) (user_id : ℤ)
    (mt : String) (w l : List ℤ) (score : String)
    (hget : get_pending_match s match_id = some (mt, w, l, score))
    (hmem : user_id ∉ w ++ l) :
    process_match_confirmation s match_id user_id =
      (s, ConfirmOutcome.notParticipant) :=
  process_match_confirmation_not_participant s match_id user_id mt w l score
    hget hmem

/-- Witness for C8: a stranger (id 5) cannot confirm match 1. -/
theorem C8_witness :
    (get_pending_match stateA 1 = some ("1vs1", [1], [2], "11-9") ∧
      (5 : ℤ) ∉ (([1] ++ [2]) : List ℤ)) ∧
    process_match_confirmation stateA 1 5 = (stateA, ConfirmOutcome.notParticipant) :=
  ⟨⟨by decide, by decide⟩,
   C8_not_authorized stateA 1 5 "1vs1" [1] [2] "11-9" (by decide) (by decide)⟩

/-! ## C9 — expiry removes the pending row and nothing else -/

/-- Claim C9: when the expiry job fires while the pending row still
exists, it deletes exactly that pending row and emits exactly one expiry
note referencing the original report (match id and original message);
the players table and the finalized history are untouched and no further
lookup of the id succeeds. -/
theorem C9_expiry_frame (s : DBState) (match_id : ℕ)
    (chat_id original_message_id : ℤ) (r : String × List ℤ × List ℤ × String)
    (hget : get_pending_match s match_id = some r) :
    delete_pending_match_job s match_id chat_id original_message_id =
      (delete_pending_match s match_id,
       [⟨chat_id, match_id, original_message_id⟩]) ∧
    (delete_pending_match s match_id).players = s.players ∧
    (delete_pending_match s match_id).match_history = s.match_history ∧
    get_pending_match (delete_pending_match s match_id) match_id = none := by
  refine ⟨?_, rfl, rfl, get_pending_match_delete s match_id⟩
  unfold delete_pending_match_job
  rw [hget]

/-- Witness for C9 at a concrete state. -/
theorem C9_witness :
    get_pending_match stateA 1 = some ("1vs1", [1], [2], "11-9") ∧
    delete_pending_match_job stateA 1 100 200 =
      (delete_pending_match stateA 1, [⟨100, 1, 200⟩]) :=
  ⟨by decide,
   (C9_expiry_frame stateA 1 100 200 ("1vs1", [1], [2], "11-9") (by decide)).1⟩

/-! ## C10 — zero delta counts a loss for everyone -/

/-- Claim C10: with a sufficiently large gap (winner 3000 vs loser 1000)
the engine returns delta 0, and confirming the match increments the
*losses* counter of every participant — the winner included — and
nobody's wins, because `update_player_rating` records a win only when
the applied delta is strictly positive. Ratings are unchanged. -/
theorem C10_zero_delta_all_losses :
    calculate_elo_change 3000 1000 = 0 ∧
    (process_match_confirmation stateGap 1 1).2 = ConfirmOutcome.confirmed 0 ∧
    findRow (process_match_confirmation stateGap 1 1).1.players 1 =
      some ⟨"p1", 3000, 0, 1⟩ ∧
    findRow (process_match_confirmation stateGap 1 1).1.players 2 =
      some ⟨"p2", 1000, 0, 1⟩ := by
  have h : deltaOf stateGap [1] [2] = calculate_elo_change 3000 1000 := by
    unfold deltaOf
    rw [List.map_singleton, List.map_singleton,
      get_player_rating_of_intCast stateGap 1 3000 ⟨"p1", 3000, 0, 0⟩ rfl
        (by norm_num),
      get_player_rating_of_intCast stateGap 2 1000 ⟨"p2", 1000, 0, 0⟩ rfl
        (by norm_num),
      teamAvg_single, teamAvg_single, pyTrunc_intCast, pyTrunc_intCast]
  have h0 : deltaOf stateGap [1] [2] = 0 := by
    rw [h, calculate_elo_change_3000_1000]
  have hrw := process_match_confirmation_confirmed stateGap 1 1 "1vs1" [1] [2]
    "11-0" (by decide) (by decide)
  rw [h0] at hrw
  refine ⟨calculate_elo_change_3000_1000, ?_, ?_, ?_⟩
  · rw [hrw]
  · rw [hrw]
    dsimp only
    rw [finalize_match_players,
      applyTeamDelta_findRow_not_mem [2] _ _ 1 (by decide),
      applyTeamDelta_findRow_mem [1] _ _ 1 (by decide) (by decide),
      show findRow stateGap.players 1 = some ⟨"p1", 3000, 0, 0⟩ from rfl]
    simp [updRow]
  · rw [hrw]
    dsimp only
    rw [finalize_match_players,
      applyTeamDelta_findRow_mem [2] _ _ 2 (by decide) (by decide),
      applyTeamDelta_findRow_not_mem [1] _ _ 2 (by decide),
      show findRow stateGap.players 2 = some ⟨"p2", 1000, 0, 0⟩ from rfl]
    simp [updRow]

end TennisBot
